import Mathlib

/-
Verification development for libxmf2svg (src/src/lib/wmf2svg.c together with
src/inc/wmf2svg_private.h and src/inc/wmf2svg.h).

Shallow embedding conventions:
  * A byte buffer `contents`/`length` is embedded as a total function
    `d : Nat → Nat` (byte at each offset, reads reduced mod 256) together with
    an explicit length.  Concrete buffers are built from lists via `bufOf`.
  * C machine integers are Nat/Int; 32-bit and 16-bit wrap-around is written
    explicitly (`% 2 ^ 32`, two's-complement reinterpretation in `toInt32`).
  * C `double` arithmetic is embedded over ℚ: every double operation the
    modelled code performs (+, -, *, /, comparison, max) is an exact field
    operation here.
  * Heap objects (device contexts, the object table, saved-DC stack nodes,
    owned strings) are embedded as immutable values: `memcpy` + `strdup` deep
    copies become value copies, the DC stack becomes a `List`.
  * `fprintf` emission to the in-memory sink is embedded at token granularity:
    each write the code performs contributes one constructor of a token type
    carrying the decision-relevant values; the concrete `%.2f`-style text
    rendering of a token is not modelled.
-/

/-! ## Byte reads (little-endian, as the memcpy/byte accesses in wmf2svg.c) -/

/-- One byte of the buffer at offset `i` (buffer bytes are values mod 256). -/
def readU8 (d : Nat → Nat) (i : Nat) : Nat := d i % 256

/-- Little-endian 16-bit read at offset `i`, as the `memcpy(&v, p, 2)` reads. -/
def readU16 (d : Nat → Nat) (i : Nat) : Nat :=
  readU8 d i + 2 ^ 8 * readU8 d (i + 1)

/-- Little-endian 32-bit read at offset `i`, as the `memcpy(&v, p, 4)` reads. -/
def readU32 (d : Nat → Nat) (i : Nat) : Nat :=
  readU8 d i + 2 ^ 8 * readU8 d (i + 1) + 2 ^ 16 * readU8 d (i + 2) +
    2 ^ 24 * readU8 d (i + 3)

/-- Reinterpret a value in [0, 2^32) as a two's-complement signed 32-bit int,
as the C conversion from `uint32_t` to `int` behaves in the source. -/
def toInt32 (n : Nat) : Int :=
  if n < 2 ^ 31 then (n : Int) else (n : Int) - 2 ^ 32

/-- Reinterpret a value in [0, 2^16) as a signed 16-bit int. -/
def toInt16 (n : Nat) : Int :=
  if n < 2 ^ 15 then (n : Int) else (n : Int) - 2 ^ 16

/-- Little-endian signed 16-bit read. -/
def readI16 (d : Nat → Nat) (i : Nat) : Int := toInt16 (readU16 d i)

/-- Concrete buffers: byte `i` of the list, 0 beyond its end. -/
def bufOf (l : List Nat) : Nat → Nat := fun i => l.getD i 0

/-! ## Constants from src/inc/wmf2svg_private.h -/

def WMF_ALTERNATE : Nat := 1
def WMF_WINDING : Nat := 2
def WMF_TRANSPARENT : Nat := 1
def WMF_OPAQUE : Nat := 2

def WMF_BS_SOLID : Nat := 0
def WMF_BS_NULL : Nat := 1
def WMF_BS_HOLLOW : Nat := 1

def WMF_PS_SOLID : Nat := 0
def WMF_PS_DASH : Nat := 1
def WMF_PS_DOT : Nat := 2
def WMF_PS_DASHDOT : Nat := 3
def WMF_PS_DASHDOTDOT : Nat := 4
def WMF_PS_NULL : Nat := 5

def WMF_TA_LEFT : Nat := 0x0000
def WMF_TA_TOP : Nat := 0x0000

def WMF_WHITE_BRUSH : Nat := 0x80000000
def WMF_LTGRAY_BRUSH : Nat := 0x80000001
def WMF_GRAY_BRUSH : Nat := 0x80000002
def WMF_DKGRAY_BRUSH : Nat := 0x80000003
def WMF_BLACK_BRUSH : Nat := 0x80000004
def WMF_NULL_BRUSH : Nat := 0x80000005
def WMF_WHITE_PEN : Nat := 0x80000006
def WMF_BLACK_PEN : Nat := 0x80000007
def WMF_NULL_PEN : Nat := 0x80000008

def WMF_OBJ_INVALID : Nat := 0
def WMF_OBJ_PEN : Nat := 1
def WMF_OBJ_BRUSH : Nat := 2
def WMF_OBJ_FONT : Nat := 3

def WMF_MM_ANISOTROPIC : Nat := 8

/-! ## Validity probe: wmf2svg_is_wmf (wmf2svg.c lines 1173-1208)

The C function takes non-null `contents` and `is_wmf` pointers (the embedding
has no null pointers); it returns -1 and stores false when `length < 18`,
otherwise it returns 0 and stores the computed flag. -/

def wmf2svg_is_wmf (d : Nat → Nat) (len : Nat) : Int × Bool :=
  if len < 18 then (-1, false)
  else if readU32 d 0 = 0x9AC6CDD7 then
    -- placeable header present: check the WMF header after it
    if len < 22 + 18 then (0, false)
    else
      (0, decide (readU8 d 22 = 1 ∧
                  (readU16 d 24 = 0x0100 ∨ readU16 d 24 = 0x0300)))
  else
    (0, decide (readU8 d 0 = 1 ∧
                (readU16 d 4 = 0x0100 ∨ readU16 d 4 = 0x0300)))

/-! ## Device context (WMF_DEVICE_CONTEXT, wmf2svg_private.h lines 182-230) -/

structure WMF_DEVICE_CONTEXT where
  font_set : Bool
  font_name : Option String
  font_height : Int
  font_width : Int
  font_escapement : Int
  font_orientation : Int
  font_weight : Int
  font_italic : Nat
  font_underline : Nat
  font_strikeout : Nat
  font_charset : Nat
  stroke_set : Bool
  stroke_style : Nat
  stroke_red : Nat
  stroke_green : Nat
  stroke_blue : Nat
  stroke_width : ℚ
  fill_set : Bool
  fill_style : Nat
  fill_hatch : Nat
  fill_red : Nat
  fill_green : Nat
  fill_blue : Nat
  fill_polymode : Nat
  text_red : Nat
  text_green : Nat
  text_blue : Nat
  text_align : Nat
  bk_red : Nat
  bk_green : Nat
  bk_blue : Nat
  bk_mode : Nat
  rop2_mode : Nat
deriving DecidableEq

/-- wmf_initDeviceContext (wmf2svg.c lines 77-112): memset to zero, then the
listed defaults. -/
def wmf_initDeviceContext : WMF_DEVICE_CONTEXT :=
  { font_set := false
    font_name := none
    font_height := 0
    font_width := 0
    font_escapement := 0
    font_orientation := 0
    font_weight := 0
    font_italic := 0
    font_underline := 0
    font_strikeout := 0
    font_charset := 0
    stroke_set := true
    stroke_style := WMF_PS_SOLID
    stroke_red := 0
    stroke_green := 0
    stroke_blue := 0
    stroke_width := 1
    fill_set := true
    fill_style := WMF_BS_SOLID
    fill_red := 255
    fill_green := 255
    fill_blue := 255
    fill_hatch := 0
    fill_polymode := WMF_ALTERNATE
    text_red := 0
    text_green := 0
    text_blue := 0
    text_align := WMF_TA_LEFT + WMF_TA_TOP
    bk_red := 255
    bk_green := 255
    bk_blue := 255
    bk_mode := WMF_OPAQUE
    rop2_mode := 13 }

/-! ## Graphics objects (WMF_GRAPH_OBJECT, wmf2svg_private.h lines 145-177) -/

structure WMF_GRAPH_OBJECT where
  type : Nat
  font_set : Bool
  font_name : Option String
  font_height : Int
  font_width : Int
  font_escapement : Int
  font_orientation : Int
  font_weight : Int
  font_italic : Nat
  font_underline : Nat
  font_strikeout : Nat
  font_charset : Nat
  stroke_set : Bool
  stroke_style : Nat
  stroke_red : Nat
  stroke_green : Nat
  stroke_blue : Nat
  stroke_width : ℚ
  fill_set : Bool
  fill_style : Nat
  fill_hatch : Nat
  fill_red : Nat
  fill_green : Nat
  fill_blue : Nat
deriving DecidableEq

/-- A zeroed WMF_GRAPH_OBJECT (`memset(.., 0, ..)` / `calloc`): type is
WMF_OBJ_INVALID. -/
def wmf_zeroObject : WMF_GRAPH_OBJECT :=
  { type := WMF_OBJ_INVALID
    font_set := false
    font_name := none
    font_height := 0
    font_width := 0
    font_escapement := 0
    font_orientation := 0
    font_weight := 0
    font_italic := 0
    font_underline := 0
    font_strikeout := 0
    font_charset := 0
    stroke_set := false
    stroke_style := 0
    stroke_red := 0
    stroke_green := 0
    stroke_blue := 0
    stroke_width := 0
    fill_set := false
    fill_style := 0
    fill_hatch := 0
    fill_red := 0
    fill_green := 0
    fill_blue := 0 }

/-! ## Drawing state (WMF_DRAWING_STATES, wmf2svg_private.h lines 243-299)

The fields that carry the interpreter's state.  The C array
`objectTable`/`objectTableSize` is embedded as a list whose length is the
table size; `endAddress`, the verbose flag and the output-plumbing fields are
handled by the loop/emission embedding below rather than stored here. -/

structure WMF_DRAWING_STATES where
  uniqId : Int
  nameSpace : String
  svgDelimiter : Bool
  currentDeviceContext : WMF_DEVICE_CONTEXT
  DeviceContextStack : List WMF_DEVICE_CONTEXT
  objectTable : List WMF_GRAPH_OBJECT
  scaling : ℚ
  windowOrgX : Int
  windowOrgY : Int
  windowExtX : Int
  windowExtY : Int
  viewportOrgX : Int
  viewportOrgY : Int
  viewportExtX : Int
  viewportExtY : Int
  mapMode : Nat
  cur_x : ℚ
  cur_y : ℚ
deriving DecidableEq

/-! ## Device-context stack (wmf2svg.c lines 117-156)

`wmf_copyDeviceContext` (free old string, memcpy, strdup the font name) is a
deep copy, i.e. a value copy in the embedding. -/

/-- wmf_saveDeviceContext (lines 131-139): deep-copy the current DC and push
it on the stack. -/
def wmf_saveDeviceContext (st : WMF_DRAWING_STATES) : WMF_DRAWING_STATES :=
  { st with DeviceContextStack := st.currentDeviceContext :: st.DeviceContextStack }

/-- The pop loop of wmf_restoreDeviceContext (lines 149-155): up to `count`
times, while the stack is non-empty, copy the top frame into the current DC
and discard it. -/
def wmf_restorePop : WMF_DRAWING_STATES → Nat → WMF_DRAWING_STATES
  | st, 0 => st
  | st, n + 1 =>
    match st.DeviceContextStack with
    | [] => st
    | dc :: rest =>
      wmf_restorePop { st with currentDeviceContext := dc, DeviceContextStack := rest } n

/-- wmf_restoreDeviceContext (lines 144-156): no-op on 0, else pop |index|
frames. -/
def wmf_restoreDeviceContext (st : WMF_DRAWING_STATES) (index : Int) : WMF_DRAWING_STATES :=
  if index = 0 then st else wmf_restorePop st index.natAbs

/-! ## Object table (wmf2svg.c lines 187-211) -/

/-- wmf_createObject (lines 187-199): copy `obj` into the first slot whose
type is WMF_OBJ_INVALID and return its index; `none` when the table is full. -/
def wmf_createObject :
    List WMF_GRAPH_OBJECT → WMF_GRAPH_OBJECT → List WMF_GRAPH_OBJECT × Option Nat
  | [], _ => ([], none)
  | slot :: rest, obj =>
    if slot.type = WMF_OBJ_INVALID then (obj :: rest, some 0)
    else
      match wmf_createObject rest obj with
      | (rest2, none) => (slot :: rest2, none)
      | (rest2, some i) => (slot :: rest2, some (i + 1))

/-- wmf_deleteObject (lines 204-211): out-of-range indices are ignored,
otherwise the slot is zeroed (strings freed). -/
def wmf_deleteObject (table : List WMF_GRAPH_OBJECT) (index : Nat) :
    List WMF_GRAPH_OBJECT :=
  if table.length ≤ index then table else table.set index wmf_zeroObject

/-- Number of non-Invalid slots in the table. -/
def wmf_liveCount (table : List WMF_GRAPH_OBJECT) : Nat :=
  table.countP (fun slot => slot.type ≠ WMF_OBJ_INVALID)

/-! ## SelectObject (wmf2svg.c lines 216-331)

The function mutates only `states->currentDeviceContext`; the embedding
computes the new DC from the table, the old DC and the 16-bit selector, and
installs it.  The stock-object test is the source's `index & 0x80000000`. -/

def wmf_selectObjectDC (table : List WMF_GRAPH_OBJECT) (dc : WMF_DEVICE_CONTEXT)
    (index : Nat) : WMF_DEVICE_CONTEXT :=
  if index &&& 0x80000000 ≠ 0 then
    if index = WMF_WHITE_BRUSH then
      { dc with fill_set := true, fill_style := WMF_BS_SOLID,
                fill_red := 255, fill_green := 255, fill_blue := 255 }
    else if index = WMF_LTGRAY_BRUSH then
      { dc with fill_set := true, fill_style := WMF_BS_SOLID,
                fill_red := 192, fill_green := 192, fill_blue := 192 }
    else if index = WMF_GRAY_BRUSH then
      { dc with fill_set := true, fill_style := WMF_BS_SOLID,
                fill_red := 128, fill_green := 128, fill_blue := 128 }
    else if index = WMF_DKGRAY_BRUSH then
      { dc with fill_set := true, fill_style := WMF_BS_SOLID,
                fill_red := 64, fill_green := 64, fill_blue := 64 }
    else if index = WMF_BLACK_BRUSH then
      { dc with fill_set := true, fill_style := WMF_BS_SOLID,
                fill_red := 0, fill_green := 0, fill_blue := 0 }
    else if index = WMF_NULL_BRUSH then
      { dc with fill_set := false, fill_style := WMF_BS_NULL }
    else if index = WMF_WHITE_PEN then
      { dc with stroke_set := true, stroke_style := WMF_PS_SOLID,
                stroke_red := 255, stroke_green := 255, stroke_blue := 255,
                stroke_width := 1 }
    else if index = WMF_BLACK_PEN then
      { dc with stroke_set := true, stroke_style := WMF_PS_SOLID,
                stroke_red := 0, stroke_green := 0, stroke_blue := 0,
                stroke_width := 1 }
    else if index = WMF_NULL_PEN then
      { dc with stroke_set := false, stroke_style := WMF_PS_NULL }
    else dc
  else if table.length ≤ index then dc
  else
    let obj := table.getD index wmf_zeroObject
    if obj.type = WMF_OBJ_PEN then
      { dc with stroke_set := obj.stroke_set, stroke_style := obj.stroke_style,
                stroke_red := obj.stroke_red, stroke_green := obj.stroke_green,
                stroke_blue := obj.stroke_blue, stroke_width := obj.stroke_width }
    else if obj.type = WMF_OBJ_BRUSH then
      { dc with fill_set := obj.fill_set, fill_style := obj.fill_style,
                fill_hatch := obj.fill_hatch, fill_red := obj.fill_red,
                fill_green := obj.fill_green, fill_blue := obj.fill_blue }
    else if obj.type = WMF_OBJ_FONT then
      { dc with font_set := obj.font_set, font_name := obj.font_name,
                font_height := obj.font_height, font_width := obj.font_width,
                font_escapement := obj.font_escapement,
                font_orientation := obj.font_orientation,
                font_weight := obj.font_weight, font_italic := obj.font_italic,
                font_underline := obj.font_underline,
                font_strikeout := obj.font_strikeout,
                font_charset := obj.font_charset }
    else dc

/-- wmf_selectObject: install the DC computed by the switch above. -/
def wmf_selectObject (st : WMF_DRAWING_STATES) (index : Nat) : WMF_DRAWING_STATES :=
  { st with currentDeviceContext :=
      wmf_selectObjectDC st.objectTable st.currentDeviceContext index }

/-! ## Coordinate transform (wmf2svg.c lines 355-382) -/

/-- wmf_scaleX: window-to-viewport mapping of a 16-bit logical X, then global
scaling.  C doubles are embedded over ℚ. -/
def wmf_scaleX (st : WMF_DRAWING_STATES) (x : Int) : ℚ :=
  let result : ℚ := (x : ℚ)
  let result :=
    if st.windowExtX ≠ 0 then
      (result - (st.windowOrgX : ℚ)) *
        ((st.viewportExtX : ℚ) / (st.windowExtX : ℚ)) + (st.viewportOrgX : ℚ)
    else result
  result * st.scaling

/-- wmf_scaleY, symmetric to wmf_scaleX. -/
def wmf_scaleY (st : WMF_DRAWING_STATES) (y : Int) : ℚ :=
  let result : ℚ := (y : ℚ)
  let result :=
    if st.windowExtY ≠ 0 then
      (result - (st.windowOrgY : ℚ)) *
        ((st.viewportExtY : ℚ) / (st.windowExtY : ℚ)) + (st.viewportOrgY : ℚ)
    else result
  result * st.scaling

/-! ## Stroke style serialization (wmf_stroke_style, wmf2svg.c lines 401-436)

Each `fprintf` of an attribute is one token; the token carries exactly the
values the format arguments would print. -/

inductive StrokeTok where
  | strokeNone
  | strokeColor (r g b : Nat)
  | strokeWidth (w : ℚ)
  | dasharray (pattern : List ℚ)
deriving DecidableEq

/-- wmf_stroke_style, translated from the source: early `stroke="none"`
return, then color, clamped width, and the dash switch on the low nibble. -/
def wmf_stroke_style (dc : WMF_DEVICE_CONTEXT) (scaling : ℚ) : List StrokeTok :=
  if ¬ dc.stroke_set ∨ dc.stroke_style = WMF_PS_NULL then
    [StrokeTok.strokeNone]
  else
    let width0 := dc.stroke_width * scaling
    let width := if width0 < 1 then 1 else width0
    [StrokeTok.strokeColor dc.stroke_red dc.stroke_green dc.stroke_blue,
     StrokeTok.strokeWidth width] ++
    (if dc.stroke_style &&& 0x0F = WMF_PS_DASH then
       [StrokeTok.dasharray [width * 3, width]]
     else if dc.stroke_style &&& 0x0F = WMF_PS_DOT then
       [StrokeTok.dasharray [width, width]]
     else if dc.stroke_style &&& 0x0F = WMF_PS_DASHDOT then
       [StrokeTok.dasharray [width * 3, width, width, width]]
     else if dc.stroke_style &&& 0x0F = WMF_PS_DASHDOTDOT then
       [StrokeTok.dasharray [width * 3, width, width, width, width, width]]
     else [])

/-- The stroke serialization as the specification §4.8 words it: `none` when
stroke is disabled or the style is NULL; otherwise color, then width
`max(1, stroke_width * scaling)`, then the dash table on the low nibble
(DASH `3w,w`; DOT `w,w`; DASHDOT `3w,w,w,w`; DASHDOTDOT `3w,w,w,w,w,w`;
otherwise no dasharray). -/
def wmf_stroke_style_spec (dc : WMF_DEVICE_CONTEXT) (scaling : ℚ) : List StrokeTok :=
  if dc.stroke_set ∧ dc.stroke_style ≠ WMF_PS_NULL then
    let w := max 1 (dc.stroke_width * scaling)
    let nib := dc.stroke_style &&& 0x0F
    [StrokeTok.strokeColor dc.stroke_red dc.stroke_green dc.stroke_blue,
     StrokeTok.strokeWidth w] ++
    (if nib = WMF_PS_DASH then [StrokeTok.dasharray [3 * w, w]]
     else if nib = WMF_PS_DOT then [StrokeTok.dasharray [w, w]]
     else if nib = WMF_PS_DASHDOT then [StrokeTok.dasharray [3 * w, w, w, w]]
     else if nib = WMF_PS_DASHDOTDOT then
       [StrokeTok.dasharray [3 * w, w, w, w, w, w]]
     else [])
  else [StrokeTok.strokeNone]

/-! ## Record prologue and the record loop (wmf2svg.c lines 469-483, 1356-1376)

`wmf_onerec_draw` unconditionally reads the 6-byte record prologue at
`contents` (offsets pos..pos+5 of the buffer): a 32-bit word count, the iType
byte and the extra function byte.  It dispatches on iType and returns the
record's byte size (`size * 2` as a C int), or 0 for the EOF record. -/

/-- iType index of the EOF record.  The U_WMR_* indexes of uwmf.h (libuemf,
outside this repository) are the low bytes of the MS-WMF record function
numbers; META_EOF is 0x0000. -/
def U_WMR_EOF : Nat := 0x00

def U_WMR_LINETO : Nat := 0x13
def U_WMR_ARC : Nat := 0x17
def U_WMR_ELLIPSE : Nat := 0x18
def U_WMR_PIE : Nat := 0x1A
def U_WMR_RECTANGLE : Nat := 0x1B
def U_WMR_ROUNDRECT : Nat := 0x1C
def U_WMR_TEXTOUT : Nat := 0x21
def U_WMR_POLYGON : Nat := 0x24
def U_WMR_POLYLINE : Nat := 0x25
def U_WMR_CHORD : Nat := 0x30
def U_WMR_EXTTEXTOUT : Nat := 0x32
def U_WMR_POLYPOLYGON : Nat := 0x38

/-- The record's byte size: the 32-bit word count at the record start times
two, with the `size *= 2` overflow of the 32-bit multiplication. -/
def wmf_recByteSize (d : Nat → Nat) (pos : Nat) : Nat :=
  readU32 d pos * 2 % 2 ^ 32

/-- The return value of wmf_onerec_draw for the record at `pos`: 0 for the
EOF record (iType byte at pos+4), otherwise the record byte size as a C int. -/
def wmf_onerec_ret (d : Nat → Nat) (pos : Nat) : Int :=
  if readU8 d (pos + 4) = U_WMR_EOF then 0 else toInt32 (wmf_recByteSize d pos)

/-- The record loop of wmf2svg (lines 1360-1376), as the list of buffer
offsets at which wmf_onerec_draw is invoked: while the cursor is below the
buffer end, dispatch the record there; stop when the returned size is ≤ 0 or
when, after advancing, more than 100000 records have been processed.

The `fuel` argument is an embedding artifact that makes the recursion
structural; on the top-level instantiation (`wmf_recTrace`, fuel = 100001)
the fuel never runs out before the source's own record cap stops the loop,
and the cap theorem below is proved for every fuel. -/
def wmf_recTraceAux (d : Nat → Nat) (len : Nat) : Nat → Nat → Nat → List Nat
  | 0, _, _ => []
  | fuel + 1, pos, recNum =>
    if pos < len then
      pos ::
        (let ret := wmf_onerec_ret d pos
         if ret ≤ 0 then []
         else if 100000 < recNum + 1 then []
         else wmf_recTraceAux d len fuel (pos + ret.toNat) (recNum + 1))
    else []

/-- The offsets at which the record loop dispatches records, beginning at
`recStart` with `recNum = 0`. -/
def wmf_recTrace (d : Nat → Nat) (len : Nat) (recStart : Nat) : List Nat :=
  wmf_recTraceAux d len 100001 recStart 0

/-- The buffer offsets read by the record-prologue reads of the loop: each
dispatched record reads its 6 prologue bytes (wmf2svg.c lines 474-480). -/
def wmf_loopPrologueReads (d : Nat → Nat) (len : Nat) (recStart : Nat) : List Nat :=
  (wmf_recTrace d len recStart).flatMap
    (fun pos => [pos, pos + 1, pos + 2, pos + 3, pos + 4, pos + 5])

/-- The offset at which the record stream starts (wmf2svg.c lines 1242-1249).
Modelled from the spec for the part decoded by libuemf's wmfheader_get
(outside this repository): per §4.3, Size16w is the header-size-in-words
field, the second 16-bit field of the standard WMF header, which sits at
offset 22 after a placeable header and at offset 0 otherwise. -/
def wmf_recStart (d : Nat → Nat) : Nat :=
  if readU32 d 0 = 0x9AC6CDD7 then 22 + readU16 d 24 * 2 else readU16 d 2 * 2

/-! ## Sink emission of one record (wmf_onerec_draw, wmf2svg.c lines 485-1161)

For the return-code claim only the *presence* of sink output matters, so each
element the code writes to the output stream is one chunk token.  The dispatch
conditions are translated from the source; the payload decoders
(`U_WMR*_get`) live in libuemf's uwmf.c, outside this repository, and are
modelled from the spec §4.1-§4.2: a decoder succeeds exactly when the
record's own size field covers the fields it decodes, and the counts it
returns are the little-endian fields at their format offsets. -/

inductive OutChunk where
  | svgProlog
  | svgEpilog
  | elemLine
  | elemRect
  | elemEllipse
  | elemRoundRect
  | elemPolygon
  | elemPolyline
  | elemPath
  | elemText
deriving DecidableEq

/-- Modelled from the spec: success test of a libuemf payload decoder — the
record's byte size must reach the decoder's minimum record size. -/
def wmf_getterOk (bsize minBytes : Nat) : Bool := decide (minBytes ≤ bsize)

/-- The chunks the record at `pos` writes to the sink.  State-setting,
ignored and unknown records write nothing; drawing records write one element
each (POLYPOLYGON: one polygon per non-empty sub-polygon) when their decoder
succeeds, with the source's extra `numPoints > 0` / `Length > 0` guards. -/
def wmf_onerec_emit (d : Nat → Nat) (pos : Nat) : List OutChunk :=
  let bsize := wmf_recByteSize d pos
  let iType := readU8 d (pos + 4)
  if iType = U_WMR_LINETO then
    if wmf_getterOk bsize 10 then [OutChunk.elemLine] else []
  else if iType = U_WMR_RECTANGLE then
    if wmf_getterOk bsize 14 then [OutChunk.elemRect] else []
  else if iType = U_WMR_ELLIPSE then
    if wmf_getterOk bsize 14 then [OutChunk.elemEllipse] else []
  else if iType = U_WMR_ROUNDRECT then
    if wmf_getterOk bsize 18 then [OutChunk.elemRoundRect] else []
  else if iType = U_WMR_POLYGON then
    let numPoints := readU16 d (pos + 6)
    if wmf_getterOk bsize (8 + 4 * numPoints) ∧ 0 < numPoints then
      [OutChunk.elemPolygon]
    else []
  else if iType = U_WMR_POLYLINE then
    let numPoints := readU16 d (pos + 6)
    if wmf_getterOk bsize (8 + 4 * numPoints) ∧ 0 < numPoints then
      [OutChunk.elemPolyline]
    else []
  else if iType = U_WMR_POLYPOLYGON then
    let nPolys := readU16 d (pos + 6)
    let counts := fun k => readU16 d (pos + 8 + 2 * k)
    let total := (List.range nPolys).foldl (fun acc k => acc + counts k) 0
    if wmf_getterOk bsize (8 + 2 * nPolys + 4 * total) then
      (List.range nPolys).flatMap
        (fun k => if counts k = 0 then [] else [OutChunk.elemPolygon])
    else []
  else if iType = U_WMR_ARC ∨ iType = U_WMR_CHORD ∨ iType = U_WMR_PIE then
    if wmf_getterOk bsize 22 then [OutChunk.elemPath] else []
  else if iType = U_WMR_TEXTOUT then
    let strLen := readI16 d (pos + 6)
    if wmf_getterOk bsize (8 + strLen.toNat + 4) ∧ 0 < strLen then
      [OutChunk.elemText]
    else []
  else if iType = U_WMR_EXTTEXTOUT then
    let strLen := readI16 d (pos + 10)
    if wmf_getterOk bsize (14 + strLen.toNat) ∧ 0 < strLen then
      [OutChunk.elemText]
    else []
  else []

/-- The sink output of the whole record loop: the concatenation, in loop
order, of each dispatched record's output. -/
def wmf_loopOutput (d : Nat → Nat) (len : Nat) (recStart : Nat) : List OutChunk :=
  (wmf_recTrace d len recStart).flatMap (wmf_onerec_emit d)

/-! ## The conversion entry point wmf2svg (wmf2svg.c lines 1213-1411) -/

/-- The caller options (wmfGeneratorOptions, wmf2svg.h lines 25-36). -/
structure WmfOptions where
  nameSpace : String
  verbose : Bool
  svgDelimiter : Bool
  imgHeight : ℚ
  imgWidth : ℚ
deriving DecidableEq

/-- Modelled from the spec: wmfheader_get (libuemf's uwmf.c, outside this
repository) decodes the placeable and standard headers against the buffer
limit and fails — wmf2svg then returns -3 — when the buffer cannot hold them
(§4.3): 22 + 18 bytes with a placeable header, 18 bytes without. -/
def wmf_headerOk (d : Nat → Nat) (len : Nat) : Bool :=
  if readU32 d 0 = 0x9AC6CDD7 then decide (22 + 18 ≤ len) else decide (18 ≤ len)

/-- Everything wmf2svg writes to the sink: the SVG prologue when delimiters
are requested (lines 1343-1353), the record-loop output, the epilogue when
delimiters are requested (lines 1379-1381). -/
def wmf_emittedSvg (d : Nat → Nat) (len : Nat) (opts : WmfOptions) : List OutChunk :=
  (if opts.svgDelimiter then [OutChunk.svgProlog] else []) ++
    wmf_loopOutput d len (wmf_recStart d) ++
    (if opts.svgDelimiter then [OutChunk.svgEpilog] else [])

/-- wmf2svg's observable result: return code, the buffer handed to the caller
(`*out`, `none` for NULL) and `*out_length`.  `streamOk` stands for the
success of `fmem_open` (line 1331: failure returns -4) and `allocOk` for the
success of the result `malloc` (line 1393: on failure `*out` stays NULL and
the function returns -5).  Output length is measured in chunks.  The C null
pointer checks returning -1 have no counterpart, as the embedding has no null
arguments. -/
def wmf2svg_run (d : Nat → Nat) (len : Nat) (opts : WmfOptions)
    (streamOk allocOk : Bool) : Int × Option (List OutChunk) × Nat :=
  if (wmf2svg_is_wmf d len).2 = false then (-2, none, 0)
  else if wmf_headerOk d len = false then (-3, none, 0)
  else if streamOk = false then (-4, none, 0)
  else
    let svg := wmf_emittedSvg d len opts
    if 0 < svg.length then
      if allocOk then (0, some svg, svg.length) else (-5, none, 0)
    else (-5, none, 0)

/-! ## Table-operation traces for the slot-discipline claim -/

/-- A CreateObject / DeleteObject / SelectObject step against the object
table. -/
inductive WmfTableOp where
  | create (obj : WMF_GRAPH_OBJECT)
  | delete (index : Nat)
  | select (index : Nat)
deriving DecidableEq

/-- Every object a `create` step inserts has a non-Invalid kind, as the
CREATEPENINDIRECT / CREATEBRUSHINDIRECT / CREATEFONTINDIRECT handlers build
them (wmf2svg.c lines 656, 687, 710). -/
def wmf_opsWellTyped (ops : List WmfTableOp) : Bool :=
  ops.all (fun op =>
    match op with
    | WmfTableOp.create obj => obj.type != WMF_OBJ_INVALID
    | _ => true)

/-- One step of a table trace: the table together with the running number of
successful creates and of deletes that hit a non-Invalid slot. -/
def wmf_tableStep (acc : List WMF_GRAPH_OBJECT × Nat × Nat) (op : WmfTableOp) :
    List WMF_GRAPH_OBJECT × Nat × Nat :=
  match op with
  | WmfTableOp.create obj =>
    match wmf_createObject acc.1 obj with
    | (t2, some _) => (t2, acc.2.1 + 1, acc.2.2)
    | (t2, none) => (t2, acc.2.1, acc.2.2)
  | WmfTableOp.delete i =>
    (wmf_deleteObject acc.1 i, acc.2.1,
     acc.2.2 +
       if i < acc.1.length ∧ (acc.1.getD i wmf_zeroObject).type ≠ WMF_OBJ_INVALID
       then 1 else 0)
  | WmfTableOp.select _ => acc

/-- Run a trace of table operations from the freshly `calloc`ed table of `n`
Invalid slots (wmf2svg.c lines 1274-1278). -/
def wmf_tableRun (n : Nat) (ops : List WmfTableOp) :
    List WMF_GRAPH_OBJECT × Nat × Nat :=
  ops.foldl wmf_tableStep (List.replicate n wmf_zeroObject, 0, 0)

/-! ## Concrete inputs used by the witnesses and counterexamples -/

/-- A 40-byte buffer: placeable magic, then a well-formed standard WMF header
at offset 22 with iType 1, header size 9 words (bytes 24-25) and version
0x0300 in the version field (bytes 26-27). -/
def wmfBufPlaceable : List Nat :=
  [0xD7, 0xCD, 0xC6, 0x9A] ++ List.replicate 18 0 ++
    [1, 0, 9, 0, 0, 3] ++ List.replicate 12 0

/-- An 18-byte standard WMF header: Type 1, HeaderSize 9 words, Version
0x0300, nObjects 0. -/
def wmfHeader18 : List Nat :=
  [1, 0, 9, 0, 0, 3, 0, 0, 0, 0, 0, 0, 0, 0, 0, 0, 0, 0]

/-- The 18-byte header followed by a single stray byte: a truncated record
starts at offset 18 with only 1 of its 6 prologue bytes inside the buffer. -/
def wmfBufTruncated : List Nat := wmfHeader18 ++ [3]

/-- The 18-byte header followed by a 6-byte EOF record (size 3 words, iType
0): a minimal valid WMF whose conversion writes nothing without delimiters. -/
def wmfBufEofOnly : List Nat := wmfHeader18 ++ [3, 0, 0, 0, 0, 0]

/-- A 16-byte record stream: a record of byte size 4 (size field 2 words) at
offset 0, a 6-byte unknown record (iType 0x70) at offset 4, and a 6-byte EOF
record at offset 10. -/
def wmfShortRecStream : List Nat :=
  [2, 0, 0, 0, 3, 0, 0, 0, 0x70, 0, 3, 0, 0, 0, 0, 0]

/-- An unbounded periodic record stream: at every offset ≡ 0 mod 6 a record
with size field 3 words (byte size 6) and unknown iType 0x70. -/
def wmfCapData : Nat → Nat := fun i =>
  if i % 6 = 0 then 3 else if i % 6 = 4 then 0x70 else 0

/-- A drawing state over a 2-slot table of Invalid objects, with the default
DC and the transform of a header-less file (wmf2svg.c lines 1315-1326). -/
def wmfStates0 : WMF_DRAWING_STATES :=
  { uniqId := 1
    nameSpace := ""
    svgDelimiter := false
    currentDeviceContext := wmf_initDeviceContext
    DeviceContextStack := []
    objectTable := [wmf_zeroObject, wmf_zeroObject]
    scaling := 1
    windowOrgX := 0
    windowOrgY := 0
    windowExtX := 1000
    windowExtY := 1000
    viewportOrgX := 0
    viewportOrgY := 0
    viewportExtX := 1000
    viewportExtY := 1000
    mapMode := WMF_MM_ANISOTROPIC
    cur_x := 0
    cur_y := 0 }

/-- A drawing state with a non-trivial transform, for the coordinate-claim
witness. -/
def wmfStates7 : WMF_DRAWING_STATES :=
  { wmfStates0 with
    windowOrgX := 1
    windowExtX := 2
    viewportOrgX := 5
    viewportExtX := 4
    scaling := 3 }

/-- A short table trace: two creates, a delete, another create, a select. -/
def wmfOpsExample : List WmfTableOp :=
  [WmfTableOp.create { wmf_zeroObject with type := WMF_OBJ_PEN, stroke_set := true },
   WmfTableOp.create { wmf_zeroObject with type := WMF_OBJ_BRUSH },
   WmfTableOp.delete 0,
   WmfTableOp.create { wmf_zeroObject with type := WMF_OBJ_PEN },
   WmfTableOp.select 5]

/-- Options with no namespace, no verbose trace and no document delimiters. -/
def wmfOptsPlain : WmfOptions :=
  { nameSpace := ""
    verbose := false
    svgDelimiter := false
    imgHeight := 0
    imgWidth := 0 }

/-! ## Theorems -/

/-- Claim C1 (code bug witnessed): on a 40-byte buffer that starts with the
placeable magic and holds a standard WMF header at offset 22 with iType 1 and
version 0x0300 in the version field at offset 26, wmf2svg_is_wmf reports
false — the placeable branch reads its "version" from offset 24, the
HeaderSize field, instead of offset 26. -/
theorem wmf2svg_is_wmf_placeable_misreads_version :
    readU32 (bufOf wmfBufPlaceable) 0 = 0x9AC6CDD7 ∧
    readU8 (bufOf wmfBufPlaceable) 22 = 1 ∧
    readU16 (bufOf wmfBufPlaceable) 26 = 0x0300 ∧
    (wmf2svg_is_wmf (bufOf wmfBufPlaceable) 40).2 = false := by
  decide

/-- Claim C2 (code bug witnessed): on a valid 19-byte input (18-byte standard
header plus one stray byte) the record loop enters wmf_onerec_draw at offset
18 — the loop guard only checks that the cursor is below the buffer end — and
the unconditional 6-byte prologue read touches offset 23, outside the
19-byte buffer. -/
theorem wmf2svg_record_loop_reads_out_of_bounds :
    (wmf2svg_is_wmf (bufOf wmfBufTruncated) 19).2 = true ∧
    wmf_recStart (bufOf wmfBufTruncated) = 18 ∧
    23 ∈ wmf_loopPrologueReads (bufOf wmfBufTruncated) 19 18 ∧
    19 ≤ 23 := by
  decide

/-- Claim C4 (code bug witnessed): `index & 0x80000000` is identically zero
on a 16-bit selector, so the stock-object branch of wmf_selectObject is
unreachable.  Selecting 0x8005 (NULL_BRUSH as a 16-bit stock selector, high
bit of the 16-bit selector set) and selecting WMF_NULL_BRUSH truncated to 16
bits both leave the state unchanged — in particular fill stays enabled —
instead of disabling the fill. -/
theorem wmf_selectObject_stock_branch_unreachable :
    wmfStates0.currentDeviceContext.fill_set = true ∧
    wmf_selectObject wmfStates0 0x8005 = wmfStates0 ∧
    wmf_selectObject wmfStates0 (WMF_NULL_BRUSH % 2 ^ 16) = wmfStates0 := by
  decide

/-- Claim C5: SAVEDC followed by RESTOREDC(1) restores the drawing state
exactly — the current device context (font-name contents included, since
save and restore both deep-copy) and the DC stack are as before the save. -/
theorem wmf_saveRestore_roundtrip (st : WMF_DRAWING_STATES) :
    wmf_restoreDeviceContext (wmf_saveDeviceContext st) 1 = st := by
  simp [wmf_saveDeviceContext, wmf_restoreDeviceContext, wmf_restorePop]

/-- Claim C7: with windowExtX ≠ 0 the X transform is affine, so differences
scale by (viewportExtX / windowExtX) · scaling; with windowExtX = 0 the
transform is x · scaling. -/
theorem wmf_scaleX_linearity (st : WMF_DRAWING_STATES) (x1 x2 : Int) :
    (st.windowExtX ≠ 0 →
      wmf_scaleX st x1 - wmf_scaleX st x2 =
        ((x1 : ℚ) - (x2 : ℚ)) *
          ((st.viewportExtX : ℚ) / (st.windowExtX : ℚ)) * st.scaling)
    ∧ (st.windowExtX = 0 → wmf_scaleX st x1 = (x1 : ℚ) * st.scaling) := by
  constructor
  · intro h
    simp only [wmf_scaleX, if_pos h]
    ring
  · intro h
    simp [wmf_scaleX, h]

/-- Witness for claim C7 at a concrete state with windowExtX = 2. -/
theorem wmf_scaleX_linearity_witness :
    wmf_scaleX wmfStates7 10 - wmf_scaleX wmfStates7 4 =
      (((10 : Int) : ℚ) - ((4 : Int) : ℚ)) *
        ((wmfStates7.viewportExtX : ℚ) / (wmfStates7.windowExtX : ℚ)) *
        wmfStates7.scaling :=
  (wmf_scaleX_linearity wmfStates7 10 4).1 (by decide)

/-- Claim C8: the stroke serialization of wmf_stroke_style is exactly the
spec table — `stroke="none"` iff stroke is disabled or the style is PS_NULL,
otherwise pen color, width max(1, stroke_width·scaling), and the dash pattern
of the style's low nibble. -/
theorem wmf_stroke_style_matches_spec (dc : WMF_DEVICE_CONTEXT) (scaling : ℚ) :
    wmf_stroke_style dc scaling = wmf_stroke_style_spec dc scaling := by
  unfold wmf_stroke_style wmf_stroke_style_spec
  by_cases hs : dc.stroke_set
  · by_cases hn : dc.stroke_style = WMF_PS_NULL
    · simp [hs, hn]
    · have hw : (if dc.stroke_width * scaling < 1 then (1 : ℚ)
                 else dc.stroke_width * scaling) =
          max 1 (dc.stroke_width * scaling) := by
        rcases lt_or_le (dc.stroke_width * scaling) 1 with h | h
        · simp [h, max_eq_left h.le]
        · simp [not_lt.mpr h, max_eq_right h]
      simp only [hs, hn, not_true_eq_false, false_or, if_neg, ne_eq,
        not_false_eq_true, and_self, if_pos, hw]
      by_cases h1 : dc.stroke_style &&& 0x0F = WMF_PS_DASH
      · simp [h1, WMF_PS_DASH, WMF_PS_DOT, WMF_PS_DASHDOT, WMF_PS_DASHDOTDOT,
          mul_comm]
      · by_cases h2 : dc.stroke_style &&& 0x0F = WMF_PS_DOT
        · simp [h1, h2, WMF_PS_DASH, WMF_PS_DOT, WMF_PS_DASHDOT,
            WMF_PS_DASHDOTDOT]
        · by_cases h3 : dc.stroke_style &&& 0x0F = WMF_PS_DASHDOT
          · simp [h1, h2, h3, WMF_PS_DASH, WMF_PS_DOT, WMF_PS_DASHDOT,
              WMF_PS_DASHDOTDOT, mul_comm]
          · by_cases h4 : dc.stroke_style &&& 0x0F = WMF_PS_DASHDOTDOT
            · simp [h1, h2, h3, h4, WMF_PS_DASH, WMF_PS_DOT, WMF_PS_DASHDOT,
                WMF_PS_DASHDOTDOT, mul_comm]
            · simp [h1, h2, h3, h4]
  · simp [hs]

/-- Every offset in a loop trace lies at or after the trace's starting
cursor. -/
theorem wmf_recTraceAux_start_le (d : Nat → Nat) (len : Nat) :
    ∀ fuel pos recNum q, q ∈ wmf_recTraceAux d len fuel pos recNum → pos ≤ q := by
  intro fuel
  induction fuel with
  | zero =>
    intro pos rn q hq
    simp [wmf_recTraceAux] at hq
  | succ fuel ih =>
    intro pos rn q hq
    simp only [wmf_recTraceAux] at hq
    by_cases hp : pos < len
    · rw [if_pos hp] at hq
      rcases List.mem_cons.mp hq with h | h
      · exact h.ge
      · split_ifs at h with h1 h2
        · simp at h
        · simp at h
        · exact le_trans (Nat.le_add_right pos _) (ih _ _ q h)
    · rw [if_neg hp] at hq
      simp at hq

/-- Every offset in a loop trace is below the buffer end. -/
theorem wmf_recTraceAux_mem_lt (d : Nat → Nat) (len : Nat) :
    ∀ fuel pos recNum q, q ∈ wmf_recTraceAux d len fuel pos recNum → q < len := by
  intro fuel
  induction fuel with
  | zero =>
    intro pos rn q hq
    simp [wmf_recTraceAux] at hq
  | succ fuel ih =>
    intro pos rn q hq
    simp only [wmf_recTraceAux] at hq
    by_cases hp : pos < len
    · rw [if_pos hp] at hq
      rcases List.mem_cons.mp hq with h | h
      · omega
      · split_ifs at h with h1 h2
        · simp at h
        · simp at h
        · exact ih _ _ q h
    · rw [if_neg hp] at hq
      simp at hq

/-- If a trace contains a record whose dispatch returns a size ≤ 0 or whose
extent passes the buffer end, that record is the last one dispatched. -/
theorem wmf_recTraceAux_last_record (d : Nat → Nat) (len : Nat) :
    ∀ fuel pos recNum p,
      p ∈ wmf_recTraceAux d len fuel pos recNum →
      (wmf_onerec_ret d p ≤ 0 ∨ len < p + (wmf_onerec_ret d p).toNat) →
      ∀ q ∈ wmf_recTraceAux d len fuel pos recNum, q ≤ p := by
  intro fuel
  induction fuel with
  | zero =>
    intro pos rn p hp
    simp [wmf_recTraceAux] at hp
  | succ fuel ih =>
    intro pos rn p hp hcond q hq
    simp only [wmf_recTraceAux] at hp hq
    by_cases hlt : pos < len
    · rw [if_pos hlt] at hp hq
      rcases List.mem_cons.mp hp with hp0 | hpTail
      · subst hp0
        rcases List.mem_cons.mp hq with hq0 | hqTail
        · exact hq0.le
        · split_ifs at hqTail with h1 h2
          · simp at hqTail
          · simp at hqTail
          · have hge := wmf_recTraceAux_start_le d len fuel _ _ q hqTail
            have hlen := wmf_recTraceAux_mem_lt d len fuel _ _ q hqTail
            rcases hcond with hc | hc
            · exact absurd hc h1
            · omega
      · split_ifs at hpTail with h1 h2
        · simp at hpTail
        · simp at hpTail
        · rcases List.mem_cons.mp hq with hq0 | hqTail
          · have := wmf_recTraceAux_start_le d len fuel _ _ p hpTail
            omega
          · rw [if_neg h1, if_neg h2] at hqTail
            exact ih _ _ p hpTail hcond q hqTail
    · rw [if_neg hlt] at hp
      simp at hp

/-- Claim C3 (amended): a record whose dispatch returns a size ≤ 0 (an EOF
record, or byte size 0), or whose extent [p, p + byte_size) would pass the
buffer end, is the last record the loop dispatches — the loop terminates
cleanly after interpreting it (not before, and not as an error); a short
in-bounds record of byte size 2 or 4 does not terminate the loop (see the
counterexample). -/
theorem wmf2svg_record_loop_last_record (d : Nat → Nat) (len recStart p : Nat)
    (hp : p ∈ wmf_recTrace d len recStart)
    (hcond : wmf_onerec_ret d p ≤ 0 ∨ len < p + (wmf_onerec_ret d p).toNat) :
    ∀ q ∈ wmf_recTrace d len recStart, q ≤ p :=
  wmf_recTraceAux_last_record d len 100001 recStart 0 p hp hcond

/-- Counterexample to claim C3 as stated: the first record of this stream has
byte size 4 < 6, yet the loop does not terminate there — it goes on to
dispatch the records at offsets 4 and 10. -/
theorem wmf2svg_record_loop_continues_after_short_record :
    wmf_recByteSize (bufOf wmfShortRecStream) 0 = 4 ∧
    wmf_recTrace (bufOf wmfShortRecStream) 16 0 = [0, 4, 10] := by
  decide

/-- Witness for the amended claim C3: the EOF record at offset 10 returns
size 0 and is the last dispatched record of its stream. -/
theorem wmf2svg_record_loop_last_record_witness :
    wmf_onerec_ret (bufOf wmfShortRecStream) 10 ≤ 0 ∧ (4 : Nat) ≤ 10 :=
  ⟨by decide,
   wmf2svg_record_loop_last_record (bufOf wmfShortRecStream) 16 0 10
     (by decide) (Or.inl (by decide)) 4 (by decide)⟩

/-- From record number `recNum` ≤ 100000 the loop dispatches at most
100001 - recNum further records, for any fuel: the record cap stops it. -/
theorem wmf_recTraceAux_length_le (d : Nat → Nat) (len : Nat) :
    ∀ fuel pos recNum, recNum ≤ 100000 →
      (wmf_recTraceAux d len fuel pos recNum).length ≤ 100001 - recNum := by
  intro fuel
  induction fuel with
  | zero =>
    intro pos rn hrn
    simp [wmf_recTraceAux]
  | succ fuel ih =>
    intro pos rn hrn
    simp only [wmf_recTraceAux]
    by_cases hp : pos < len
    · rw [if_pos hp]
      simp only [List.length_cons]
      split_ifs with h1 h2
      · simp
        omega
      · simp
        omega
      · have := ih (pos + (wmf_onerec_ret d pos).toNat) (rn + 1) (by omega)
        omega
    · rw [if_neg hp]
      simp

/-- Claim C9 (amended): the record loop never dispatches more than 100001
records — after the 100001st processed record the running count exceeds
100000 and the loop stops (with a warning); this holds for every fuel of the
loop embedding, in particular for the top-level trace. -/
theorem wmf2svg_record_loop_cap (d : Nat → Nat) (len recStart fuel : Nat) :
    (wmf_recTraceAux d len fuel recStart 0).length ≤ 100001 ∧
    (wmf_recTrace d len recStart).length ≤ 100001 := by
  constructor
  · have := wmf_recTraceAux_length_le d len fuel recStart 0 (by omega)
    omega
  · have := wmf_recTraceAux_length_le d len 100001 recStart 0 (by omega)
    simpa [wmf_recTrace] using this

/-- On the periodic stream, every record aligned at a multiple of 6 has
dispatch return 6. -/
theorem wmfCapData_ret (pos : Nat) (h : pos % 6 = 0) :
    wmf_onerec_ret wmfCapData pos = 6 := by
  have h0 : wmfCapData pos = 3 := by simp [wmfCapData, h]
  have e1 : (pos + 1) % 6 = 1 := by omega
  have e2 : (pos + 2) % 6 = 2 := by omega
  have e3 : (pos + 3) % 6 = 3 := by omega
  have e4 : (pos + 4) % 6 = 4 := by omega
  have h1 : wmfCapData (pos + 1) = 0 := by simp [wmfCapData, e1]
  have h2 : wmfCapData (pos + 2) = 0 := by simp [wmfCapData, e2]
  have h3 : wmfCapData (pos + 3) = 0 := by simp [wmfCapData, e3]
  have h4 : wmfCapData (pos + 4) = 0x70 := by simp [wmfCapData, e4]
  have hu32 : readU32 wmfCapData pos = 3 := by
    simp [readU32, readU8, h0, h1, h2, h3]
  have hbs : wmf_recByteSize wmfCapData pos = 6 := by
    simp [wmf_recByteSize, hu32]
  have hiT : readU8 wmfCapData (pos + 4) = 0x70 := by simp [readU8, h4]
  rw [wmf_onerec_ret, hiT, hbs]
  norm_num [U_WMR_EOF, toInt32]

/-- On the periodic stream starting at offset 18, the loop from record
number `recNum` dispatches exactly `m + 1` records when `recNum + m` is
100000 and the fuel suffices: the record cap is what stops it. -/
theorem wmfCapData_trace_length :
    ∀ m recNum fuel, recNum + m = 100000 → m + 1 ≤ fuel →
      (wmf_recTraceAux wmfCapData 600030 fuel (18 + 6 * recNum) recNum).length
        = m + 1 := by
  intro m
  induction m with
  | zero =>
    intro rn fuel h hf
    obtain ⟨f, rfl⟩ : ∃ f, fuel = f + 1 := ⟨fuel - 1, by omega⟩
    have hrn : rn = 100000 := by omega
    subst hrn
    have hret := wmfCapData_ret (18 + 6 * 100000) (by omega)
    simp only [wmf_recTraceAux]
    rw [if_pos (by omega : 18 + 6 * 100000 < 600030), hret]
    norm_num
  | succ m ih =>
    intro rn fuel h hf
    obtain ⟨f, rfl⟩ : ∃ f, fuel = f + 1 := ⟨fuel - 1, by omega⟩
    have hret := wmfCapData_ret (18 + 6 * rn) (by omega)
    have hcap : ¬ (100000 < rn + 1) := by omega
    have htail := ih (rn + 1) f (by omega) (by omega)
    simp only [wmf_recTraceAux]
    rw [if_pos (by omega : 18 + 6 * rn < 600030), hret]
    have hpos : 18 + 6 * rn + (6 : Int).toNat = 18 + 6 * (rn + 1) := by
      omega
    rw [if_neg (by norm_num : ¬ ((6 : Int) ≤ 0)), if_neg hcap, hpos]
    simp [htail]

/-- Counterexample to claim C9 as stated: on this input the record loop
dispatches 100001 records — more than 100000 — before the cap stops it. -/
theorem wmf2svg_record_loop_interprets_100001_records :
    100000 < (wmf_recTrace wmfCapData 600030 18).length := by
  have h := wmfCapData_trace_length 100000 0 100001 (by omega) (by omega)
  norm_num at h
  rw [wmf_recTrace]
  omega

/-- A failed create leaves the table unchanged, and fails only when no slot
is Invalid. -/
theorem wmf_createObject_none (t : List WMF_GRAPH_OBJECT) (o : WMF_GRAPH_OBJECT)
    (h : (wmf_createObject t o).2 = none) :
    (wmf_createObject t o).1 = t ∧ ∀ x ∈ t, x.type ≠ WMF_OBJ_INVALID := by
  induction t with
  | nil => simp [wmf_createObject]
  | cons slot rest ih =>
    by_cases hs : slot.type = WMF_OBJ_INVALID
    · simp [wmf_createObject, hs] at h
    · rcases hcr : wmf_createObject rest o with ⟨rest2, idx⟩
      cases idx with
      | some i => simp [wmf_createObject, hs, hcr] at h
      | none =>
        obtain ⟨he, hall⟩ := ih (by rw [hcr])
        rw [hcr] at he
        have he2 : rest2 = rest := he
        simp only [wmf_createObject, if_neg hs, hcr]
        refine ⟨by simp [he2], ?_⟩
        intro x hx
        rcases List.mem_cons.mp hx with rfl | hx2
        · exact hs
        · exact hall x hx2

/-- A successful create fills exactly the lowest-index Invalid slot and
returns that index. -/
theorem wmf_createObject_some (t : List WMF_GRAPH_OBJECT) (o : WMF_GRAPH_OBJECT) :
    ∀ i, (wmf_createObject t o).2 = some i →
      (wmf_createObject t o).1 = t.set i o ∧
      ∃ x, t[i]? = some x ∧ x.type = WMF_OBJ_INVALID ∧
        ∀ j, j < i → ∀ y, t[j]? = some y → y.type ≠ WMF_OBJ_INVALID := by
  induction t with
  | nil => intro i h; simp [wmf_createObject] at h
  | cons slot rest ih =>
    intro i h
    by_cases hs : slot.type = WMF_OBJ_INVALID
    · simp only [wmf_createObject, if_pos hs] at h ⊢
      have hi : i = 0 := by simpa using h.symm
      subst hi
      refine ⟨by simp, slot, by simp, hs, ?_⟩
      intro j hj y hy
      exact absurd hj (by omega)
    · rcases hcr : wmf_createObject rest o with ⟨rest2, idx⟩
      cases idx with
      | none => simp [wmf_createObject, hs, hcr] at h
      | some i2 =>
        simp only [wmf_createObject, if_neg hs, hcr] at h ⊢
        have hi : i = i2 + 1 := by simpa using h.symm
        subst hi
        obtain ⟨he, x, hx, hxt, hlow⟩ := ih i2 (by rw [hcr])
        rw [hcr] at he
        have he2 : rest2 = rest.set i2 o := he
        refine ⟨by simp [he2], x, by simpa using hx, hxt, ?_⟩
        intro j hj y hy
        cases j with
        | zero =>
          simp only [List.getElem?_cons_zero, Option.some.injEq] at hy
          rw [← hy]
          exact hs
        | succ j2 =>
          simp only [List.getElem?_cons_succ] at hy
          exact hlow j2 (by omega) y hy

/-- Overwriting slot `i` (holding `x`) with `a` changes the live count by the
liveness of `a` minus the liveness of `x`. -/
theorem wmf_liveCount_set (t : List WMF_GRAPH_OBJECT) (i : Nat)
    (a x : WMF_GRAPH_OBJECT) (hx : t[i]? = some x) :
    wmf_liveCount (t.set i a) + (if x.type ≠ WMF_OBJ_INVALID then 1 else 0)
      = wmf_liveCount t + (if a.type ≠ WMF_OBJ_INVALID then 1 else 0) := by
  induction t generalizing i with
  | nil => simp at hx
  | cons hd tl ih =>
    cases i with
    | zero =>
      simp only [List.getElem?_cons_zero, Option.some.injEq] at hx
      subst hx
      simp only [List.set_cons_zero, wmf_liveCount, List.countP_cons]
      split_ifs <;> simp_all
    | succ i2 =>
      simp only [List.getElem?_cons_succ] at hx
      have h2 := ih i2 hx
      simp only [List.set_cons_succ, wmf_liveCount, List.countP_cons] at h2 ⊢
      omega

/-- The table of `n` freshly zeroed slots has no live slot. -/
theorem wmf_liveCount_replicate (n : Nat) :
    wmf_liveCount (List.replicate n wmf_zeroObject) = 0 := by
  induction n with
  | zero => simp [wmf_liveCount]
  | succ n ih =>
    simp only [List.replicate_succ, wmf_liveCount, List.countP_cons] at ih ⊢
    simp [ih, wmf_zeroObject]

/-- One table step preserves the counting invariant
`liveCount + deletesOfLive = successfulCreates`. -/
theorem wmf_tableStep_inv (acc : List WMF_GRAPH_OBJECT × Nat × Nat)
    (op : WmfTableOp)
    (hop : ∀ o, op = WmfTableOp.create o → o.type ≠ WMF_OBJ_INVALID)
    (h : wmf_liveCount acc.1 + acc.2.2 = acc.2.1) :
    wmf_liveCount (wmf_tableStep acc op).1 + (wmf_tableStep acc op).2.2
      = (wmf_tableStep acc op).2.1 := by
  rcases acc with ⟨t, cr, dl⟩
  dsimp only at h
  cases op with
  | create o =>
    rcases hcr : wmf_createObject t o with ⟨t2, idx⟩
    cases idx with
    | none =>
      simp only [wmf_tableStep, hcr]
      obtain ⟨he, _⟩ := wmf_createObject_none t o (by rw [hcr])
      rw [hcr] at he
      have he2 : t2 = t := he
      rw [he2]
      exact h
    | some i =>
      simp only [wmf_tableStep, hcr]
      obtain ⟨he, x, hx, hxt, _⟩ := wmf_createObject_some t o i (by rw [hcr])
      rw [hcr] at he
      have he2 : t2 = t.set i o := he
      have hcnt := wmf_liveCount_set t i o x hx
      rw [if_neg (by simp [hxt]), if_pos (hop o rfl)] at hcnt
      rw [he2]
      omega
  | delete i =>
    simp only [wmf_tableStep]
    by_cases hin : i < t.length
    · obtain ⟨x, hx⟩ : ∃ x, t[i]? = some x :=
        ⟨t[i], List.getElem?_eq_getElem hin⟩
      have hgetD : t.getD i wmf_zeroObject = x := by
        simp [List.getD_eq_getElem?_getD, hx]
      have hdel : wmf_deleteObject t i = t.set i wmf_zeroObject := by
        rw [wmf_deleteObject, if_neg (by omega)]
      have hcnt := wmf_liveCount_set t i wmf_zeroObject x hx
      rw [hdel, hgetD]
      by_cases hlive : x.type ≠ WMF_OBJ_INVALID
      · rw [if_pos hlive, if_neg (by simp [wmf_zeroObject])] at hcnt
        rw [if_pos ⟨hin, hlive⟩]
        omega
      · rw [if_neg hlive, if_neg (by simp [wmf_zeroObject])] at hcnt
        rw [if_neg (fun hc => hlive hc.2)]
        omega
    · have hdel : wmf_deleteObject t i = t := by
        rw [wmf_deleteObject, if_pos (by omega)]
      rw [hdel, if_neg (fun hc => hin hc.1)]
      omega
  | select i => exact h

/-- The counting invariant holds along any well-typed trace. -/
theorem wmf_tableRun_inv :
    ∀ (ops : List WmfTableOp) (acc : List WMF_GRAPH_OBJECT × Nat × Nat),
      wmf_opsWellTyped ops = true →
      wmf_liveCount acc.1 + acc.2.2 = acc.2.1 →
      wmf_liveCount (ops.foldl wmf_tableStep acc).1 +
          (ops.foldl wmf_tableStep acc).2.2
        = (ops.foldl wmf_tableStep acc).2.1 := by
  intro ops
  induction ops with
  | nil =>
    intro acc _ h
    simpa using h
  | cons op rest ih =>
    intro acc hops h
    rw [wmf_opsWellTyped, List.all_cons, Bool.and_eq_true] at hops
    have hop1 : ∀ o, op = WmfTableOp.create o → o.type ≠ WMF_OBJ_INVALID := by
      intro o heq
      subst heq
      simpa [bne_iff_ne] using hops.1
    have hrest : wmf_opsWellTyped rest = true := hops.2
    simp only [List.foldl_cons]
    exact ih _ hrest (wmf_tableStep_inv acc op hop1 h)

/-- Claim C6: along any well-typed Create/Delete/Select trace from a fresh
table, the number of non-Invalid slots plus the number of deletes that hit a
non-Invalid slot equals the number of successful creates (i.e. live slots =
creates − deletes of live slots); a successful create returns the lowest
Invalid index; create fails only when no slot is Invalid; SelectObject never
touches the table. -/
theorem wmf_objectTable_slot_discipline (n : Nat) (ops : List WmfTableOp)
    (hops : wmf_opsWellTyped ops = true) :
    (wmf_liveCount (wmf_tableRun n ops).1 + (wmf_tableRun n ops).2.2
        = (wmf_tableRun n ops).2.1)
    ∧ (∀ t o i, (wmf_createObject t o).2 = some i →
        ∃ x, t[i]? = some x ∧ x.type = WMF_OBJ_INVALID ∧
          ∀ j, j < i → ∀ y, t[j]? = some y → y.type ≠ WMF_OBJ_INVALID)
    ∧ (∀ t o, (wmf_createObject t o).2 = none →
        ∀ x ∈ t, x.type ≠ WMF_OBJ_INVALID)
    ∧ (∀ st idx, (wmf_selectObject st idx).objectTable = st.objectTable) := by
  refine ⟨?_, ?_, ?_, ?_⟩
  · have h0 : wmf_liveCount (List.replicate n wmf_zeroObject) + 0 = 0 := by
      simp [wmf_liveCount_replicate]
    exact wmf_tableRun_inv ops (List.replicate n wmf_zeroObject, 0, 0) hops h0
  · intro t o i h
    exact (wmf_createObject_some t o i h).2
  · intro t o h
    exact (wmf_createObject_none t o h).2
  · intro st idx
    rfl

/-- Witness for claim C6 on a concrete five-operation trace over a 2-slot
table. -/
theorem wmf_objectTable_slot_discipline_witness :
    wmf_liveCount (wmf_tableRun 2 wmfOpsExample).1 +
        (wmf_tableRun 2 wmfOpsExample).2.2
      = (wmf_tableRun 2 wmfOpsExample).2.1 :=
  (wmf_objectTable_slot_discipline 2 wmfOpsExample (by decide)).1

/-- Claim C10: a valid WMF whose conversion writes nothing to the sink makes
wmf2svg return -5 with `*out` NULL and `*out_length` 0 even though no
allocation failed; and wmf2svg returns 0 exactly when the checks pass, some
output was produced and the result allocation succeeded. -/
theorem wmf2svg_return_code_output (d : Nat → Nat) (len : Nat)
    (opts : WmfOptions) (streamOk allocOk : Bool) :
    ((wmf2svg_is_wmf d len).2 = true → wmf_headerOk d len = true →
      streamOk = true → wmf_emittedSvg d len opts = [] →
      wmf2svg_run d len opts streamOk allocOk = (-5, none, 0))
    ∧ ((wmf2svg_run d len opts streamOk allocOk).1 = 0 ↔
        (wmf2svg_is_wmf d len).2 = true ∧ wmf_headerOk d len = true ∧
          streamOk = true ∧ wmf_emittedSvg d len opts ≠ [] ∧ allocOk = true) := by
  constructor
  · intro h1 h2 h3 h4
    simp [wmf2svg_run, h1, h2, h3, h4]
  · simp only [wmf2svg_run]
    split_ifs with h1 h2 h3 h4 h5
    · simp [h1]
    · simp [h2]
    · simp [h3]
    · simp_all [Bool.not_eq_false, List.length_pos]
    · simp_all [Bool.not_eq_false, List.length_pos]
    · simp_all [Bool.not_eq_false, List.length_pos, List.length_eq_zero]

/-- Witness for claim C10: the minimal EOF-only WMF without document
delimiters emits nothing, and wmf2svg returns -5 with NULL output and length
0 although stream creation and allocation both succeed. -/
theorem wmf2svg_return_code_output_witness :
    wmf2svg_run (bufOf wmfBufEofOnly) 24 wmfOptsPlain true true = (-5, none, 0) :=
  (wmf2svg_return_code_output (bufOf wmfBufEofOnly) 24 wmfOptsPlain true true).1
    (by decide) (by decide) rfl (by decide)
